import Mathlib

set_option maxHeartbeats 1000000

/-! Verification of the LSTM captioning exercise (cs231n, `LSTM_Captioning.ipynb`).

The repository is a coursework notebook exercising an LSTM layer
(`lstm_step_forward`, `lstm_step_backward`, `lstm_forward`, `lstm_backward`)
and a captioning model (`CaptioningRNN.loss`, `CaptioningRNN.sample`).
The notebook is present in the sources; the layer implementations themselves
live in `cs231n/rnn_layers.py` and `cs231n/classifiers/rnn.py`, which are not
part of the source tree, so those functions are modelled from the
specification's formulas.  Arrays of floating point numbers are modelled as
`Fin`-indexed families of real numbers; exact rational data (the `rel_error`
helper, which only uses field arithmetic, absolute value and max) is modelled
over `ℚ` so that it stays executable.
-/

open Finset

/-! ## The `rel_error` helper (notebook cell 1)

`rel_error(x, y) = np.max(np.abs(x - y) / (np.maximum(1e-8, np.abs(x) + np.abs(y))))`,
modelled on two-dimensional arrays with at least one entry (NumPy's `max`
rejects an empty array).  The arithmetic involved is exact, so we use `ℚ`. -/

/-- The clamped denominator `maximum(1e-8, |x| + |y|)` at one position. -/
def relDen {m n : ℕ} (x y : Fin (m + 1) → Fin (n + 1) → ℚ) (i : Fin (m + 1))
    (j : Fin (n + 1)) : ℚ :=
  max (1 / 100000000) (|x i j| + |y i j|)

/-- Model of `rel_error` from the notebook: the maximum over all positions of
`|x - y|` divided by the clamped denominator. -/
def relError {m n : ℕ} (x y : Fin (m + 1) → Fin (n + 1) → ℚ) : ℚ :=
  Finset.sup' Finset.univ ⟨(0, 0), Finset.mem_univ _⟩
    (fun p : Fin (m + 1) × Fin (n + 1) => |x p.1 p.2 - y p.1 p.2| / relDen x y p.1 p.2)

/-! ## LSTM cell step, forward

Modelled from the spec: `lstm_step_forward` of `cs231n/rnn_layers.py` is not in
the source tree; the notebook (cell 4) and spec §4.1 give the exact formulas:
`a = x·Wx + prev_h·Wh + b`, gates `i = σ(a[:, 0:H])`, `f = σ(a[:, H:2H])`,
`o = σ(a[:, 2H:3H])`, `g = tanh(a[:, 3H:4H])`,
`next_c = f ⊙ prev_c + i ⊙ g`, `next_h = o ⊙ tanh(next_c)`. -/

/-- The logistic sigmoid `σ(z) = 1 / (1 + e^(-z))`. -/
noncomputable def sigmoid (z : ℝ) : ℝ := 1 / (1 + Real.exp (-z))

/-- Index of position `j` inside the `k`-th `H`-wide block of a `4H`-vector. -/
def blockIdx {H : ℕ} (k : Fin 4) (j : Fin H) : Fin (4 * H) :=
  ⟨(k : ℕ) * H + (j : ℕ), by
    have hj : (j : ℕ) < H := j.2
    have hk : (k : ℕ) < 4 := k.2
    calc (k : ℕ) * H + (j : ℕ) < (k : ℕ) * H + H := by omega
    _ = ((k : ℕ) + 1) * H := by ring
    _ ≤ 4 * H := Nat.mul_le_mul_right H (by omega)⟩

/-- Modelled from the spec (missing `cs231n/rnn_layers.py`): the pre-activation
`a = x·Wx + prev_h·Wh + b`, an `N × 4H` array. -/
noncomputable def lstmA {N D H : ℕ} (x : Fin N → Fin D → ℝ)
    (prev_h : Fin N → Fin H → ℝ) (Wx : Fin D → Fin (4 * H) → ℝ)
    (Wh : Fin H → Fin (4 * H) → ℝ) (b : Fin (4 * H) → ℝ) :
    Fin N → Fin (4 * H) → ℝ :=
  fun n j => (∑ d, x n d * Wx d j) + (∑ k, prev_h n k * Wh k j) + b j

/-- Modelled from the spec (missing `cs231n/rnn_layers.py`): one LSTM timestep.
Returns `(next_h, next_c)`; the cache the Python code also returns is just the
tuple of inputs and intermediates, which this pure model recomputes on demand. -/
noncomputable def lstm_step_forward {N D H : ℕ} (x : Fin N → Fin D → ℝ)
    (prev_h prev_c : Fin N → Fin H → ℝ) (Wx : Fin D → Fin (4 * H) → ℝ)
    (Wh : Fin H → Fin (4 * H) → ℝ) (b : Fin (4 * H) → ℝ) :
    (Fin N → Fin H → ℝ) × (Fin N → Fin H → ℝ) :=
  let a := lstmA x prev_h Wx Wh b
  let i := fun n j => sigmoid (a n (blockIdx 0 j))
  let f := fun n j => sigmoid (a n (blockIdx 1 j))
  let o := fun n j => sigmoid (a n (blockIdx 2 j))
  let g := fun n j => Real.tanh (a n (blockIdx 3 j))
  let next_c := fun n j => f n j * prev_c n j + i n j * g n j
  (fun n j => o n j * Real.tanh (next_c n j), next_c)

/-! ## LSTM over a whole sequence, forward

Modelled from the spec §4.3: `lstm_forward` iterates the cell step over the
`T` timesteps, carrying hidden and cell state; the initial cell state is the
zero array and is not an argument. -/

/-- The slice `x[:, t, :]` of a batched sequence, extended by zero past `T`
so that the recurrence can be stated over `ℕ`. -/
noncomputable def xAt {N T D : ℕ} (x : Fin N → Fin T → Fin D → ℝ) (t : ℕ) :
    Fin N → Fin D → ℝ :=
  fun n d => if h : t < T then x n ⟨t, h⟩ d else 0

/-- Modelled from the spec (missing `cs231n/rnn_layers.py`): the pair
`(hidden state, cell state)` after `t` LSTM steps, starting from `(h0, 0)`. -/
noncomputable def lstm_states {N T D H : ℕ} (x : Fin N → Fin T → Fin D → ℝ)
    (h0 : Fin N → Fin H → ℝ) (Wx : Fin D → Fin (4 * H) → ℝ)
    (Wh : Fin H → Fin (4 * H) → ℝ) (b : Fin (4 * H) → ℝ) :
    ℕ → (Fin N → Fin H → ℝ) × (Fin N → Fin H → ℝ)
  | 0 => (h0, fun _ _ => 0)
  | t + 1 =>
      let st := lstm_states x h0 Wx Wh b t
      lstm_step_forward (xAt x t) st.1 st.2 Wx Wh b

/-- Modelled from the spec (missing `cs231n/rnn_layers.py`): `lstm_forward`
returns the hidden state at every timestep; it takes no initial cell state. -/
noncomputable def lstm_forward {N T D H : ℕ} (x : Fin N → Fin T → Fin D → ℝ)
    (h0 : Fin N → Fin H → ℝ) (Wx : Fin D → Fin (4 * H) → ℝ)
    (Wh : Fin H → Fin (4 * H) → ℝ) (b : Fin (4 * H) → ℝ) :
    Fin N → Fin T → Fin H → ℝ :=
  fun n t j => (lstm_states x h0 Wx Wh b ((t : ℕ) + 1)).1 n j

/-! ## LSTM cell step, backward

Modelled from the spec §4.2: the chain rule through the gates,
`d tanh(c)/dc = 1 - tanh(c)^2`, `dσ(a)/da = σ(a)(1-σ(a))`; `dnext_c` may be
absent and is then treated as the zero array. -/

/-- The six gradients returned by `lstm_step_backward`. -/
structure LstmStepGrads (N D H : ℕ) where
  dx : Fin N → Fin D → ℝ
  dprev_h : Fin N → Fin H → ℝ
  dprev_c : Fin N → Fin H → ℝ
  dWx : Fin D → Fin (4 * H) → ℝ
  dWh : Fin H → Fin (4 * H) → ℝ
  db : Fin (4 * H) → ℝ

/-- Modelled from the spec (missing `cs231n/rnn_layers.py`): gradient of the
pre-activation `a`, assembled from the four gate blocks in the fixed order
(input, forget, output, block-input). -/
noncomputable def lstmDa {N D H : ℕ} (dnext_h : Fin N → Fin H → ℝ)
    (dnext_c : Option (Fin N → Fin H → ℝ)) (x : Fin N → Fin D → ℝ)
    (prev_h prev_c : Fin N → Fin H → ℝ) (Wx : Fin D → Fin (4 * H) → ℝ)
    (Wh : Fin H → Fin (4 * H) → ℝ) (b : Fin (4 * H) → ℝ) :
    Fin N → Fin (4 * H) → ℝ :=
  let a := lstmA x prev_h Wx Wh b
  let i := fun n (j : Fin H) => sigmoid (a n (blockIdx 0 j))
  let f := fun n (j : Fin H) => sigmoid (a n (blockIdx 1 j))
  let o := fun n (j : Fin H) => sigmoid (a n (blockIdx 2 j))
  let g := fun n (j : Fin H) => Real.tanh (a n (blockIdx 3 j))
  let next_c := fun n j => f n j * prev_c n j + i n j * g n j
  let dnc := dnext_c.getD fun _ _ => 0
  let dc := fun n j => dnc n j + dnext_h n j * o n j * (1 - Real.tanh (next_c n j) ^ 2)
  fun n m =>
    if h1 : (m : ℕ) < H then
      let j : Fin H := ⟨(m : ℕ), h1⟩
      dc n j * g n j * (i n j * (1 - i n j))
    else if h2 : (m : ℕ) < 2 * H then
      let j : Fin H := ⟨(m : ℕ) - H, by omega⟩
      dc n j * prev_c n j * (f n j * (1 - f n j))
    else if h3 : (m : ℕ) < 3 * H then
      let j : Fin H := ⟨(m : ℕ) - 2 * H, by omega⟩
      dnext_h n j * Real.tanh (next_c n j) * (o n j * (1 - o n j))
    else
      let j : Fin H := ⟨(m : ℕ) - 3 * H, by have := m.2; omega⟩
      dc n j * i n j * (1 - g n j ^ 2)

/-- Modelled from the spec (missing `cs231n/rnn_layers.py`): one LSTM timestep
backward.  The cache of the matching forward call is the tuple of its inputs;
`dnext_c` is optional and treated as zero when absent. -/
noncomputable def lstm_step_backward {N D H : ℕ} (dnext_h : Fin N → Fin H → ℝ)
    (dnext_c : Option (Fin N → Fin H → ℝ)) (x : Fin N → Fin D → ℝ)
    (prev_h prev_c : Fin N → Fin H → ℝ) (Wx : Fin D → Fin (4 * H) → ℝ)
    (Wh : Fin H → Fin (4 * H) → ℝ) (b : Fin (4 * H) → ℝ) :
    LstmStepGrads N D H :=
  let a := lstmA x prev_h Wx Wh b
  let f := fun n (j : Fin H) => sigmoid (a n (blockIdx 1 j))
  let o := fun n (j : Fin H) => sigmoid (a n (blockIdx 2 j))
  let i := fun n (j : Fin H) => sigmoid (a n (blockIdx 0 j))
  let g := fun n (j : Fin H) => Real.tanh (a n (blockIdx 3 j))
  let next_c := fun n j => f n j * prev_c n j + i n j * g n j
  let dnc := dnext_c.getD fun _ _ => 0
  let dc := fun n j => dnc n j + dnext_h n j * o n j * (1 - Real.tanh (next_c n j) ^ 2)
  let da := lstmDa dnext_h dnext_c x prev_h prev_c Wx Wh b
  { dx := fun n d => ∑ m, da n m * Wx d m
    dprev_h := fun n k => ∑ m, da n m * Wh k m
    dprev_c := fun n j => dc n j * f n j
    dWx := fun d m => ∑ n, x n d * da n m
    dWh := fun k m => ∑ n, prev_h n k * da n m
    db := fun m => ∑ n, da n m }

/-! ## LSTM over a whole sequence, backward

Modelled from the spec §4.4: timesteps are processed in strict reverse order;
the running `dnext_h` fed into timestep `t` is `dh[:, t, :]` plus the
`dprev_h` of timestep `t + 1`'s backward call, the running `dnext_c` is the
`dprev_c` carried from timestep `t + 1` (zero at the last timestep); the
weight gradients accumulate additively across timesteps. -/

/-- The slice `dh[:, t, :]`, extended by zero past `T`. -/
noncomputable def dhAt {N T H : ℕ} (dh : Fin N → Fin T → Fin H → ℝ) (t : ℕ) :
    Fin N → Fin H → ℝ :=
  fun n j => if h : t < T then dh n ⟨t, h⟩ j else 0

/-- The accumulator state of the reverse loop of `lstm_backward`. -/
structure LstmSeqState (N D H : ℕ) where
  dprev_h : Fin N → Fin H → ℝ
  dprev_c : Fin N → Fin H → ℝ
  dWx : Fin D → Fin (4 * H) → ℝ
  dWh : Fin H → Fin (4 * H) → ℝ
  db : Fin (4 * H) → ℝ

/-- Modelled from the spec (missing `cs231n/rnn_layers.py`): the state of the
reverse loop of `lstm_backward` after processing `k` timesteps, that is after
handling timesteps `T-1, T-2, ..., T-k`. -/
noncomputable def lstm_backward_state {N T D H : ℕ}
    (dh : Fin N → Fin T → Fin H → ℝ) (x : Fin N → Fin T → Fin D → ℝ)
    (h0 : Fin N → Fin H → ℝ) (Wx : Fin D → Fin (4 * H) → ℝ)
    (Wh : Fin H → Fin (4 * H) → ℝ) (b : Fin (4 * H) → ℝ) :
    ℕ → LstmSeqState N D H
  | 0 =>
      { dprev_h := fun _ _ => 0, dprev_c := fun _ _ => 0
        dWx := fun _ _ => 0, dWh := fun _ _ => 0, db := fun _ => 0 }
  | k + 1 =>
      let s := lstm_backward_state dh x h0 Wx Wh b k
      let t := T - 1 - k
      let st := lstm_states x h0 Wx Wh b t
      let g := lstm_step_backward (fun n j => dhAt dh t n j + s.dprev_h n j)
        (some s.dprev_c) (xAt x t) st.1 st.2 Wx Wh b
      { dprev_h := g.dprev_h, dprev_c := g.dprev_c
        dWx := fun d m => s.dWx d m + g.dWx d m
        dWh := fun c m => s.dWh c m + g.dWh c m
        db := fun m => s.db m + g.db m }

/-- The backward call made for timestep `t` inside `lstm_backward`: its
`dnext_h` input is `dh[:, t, :]` plus the carried `dprev_h`, its `dnext_c`
input is the carried `dprev_c`. -/
noncomputable def lstm_backward_stepAt {N T D H : ℕ}
    (dh : Fin N → Fin T → Fin H → ℝ) (x : Fin N → Fin T → Fin D → ℝ)
    (h0 : Fin N → Fin H → ℝ) (Wx : Fin D → Fin (4 * H) → ℝ)
    (Wh : Fin H → Fin (4 * H) → ℝ) (b : Fin (4 * H) → ℝ) (t : ℕ) :
    LstmStepGrads N D H :=
  let s := lstm_backward_state dh x h0 Wx Wh b (T - 1 - t)
  let st := lstm_states x h0 Wx Wh b t
  lstm_step_backward (fun n j => dhAt dh t n j + s.dprev_h n j)
    (some s.dprev_c) (xAt x t) st.1 st.2 Wx Wh b

/-- Modelled from the spec (missing `cs231n/rnn_layers.py`): `lstm_backward`
returns `(dx, dh0, dWx, dWh, db)` after the full reverse sweep. -/
noncomputable def lstm_backward {N T D H : ℕ}
    (dh : Fin N → Fin T → Fin H → ℝ) (x : Fin N → Fin T → Fin D → ℝ)
    (h0 : Fin N → Fin H → ℝ) (Wx : Fin D → Fin (4 * H) → ℝ)
    (Wh : Fin H → Fin (4 * H) → ℝ) (b : Fin (4 * H) → ℝ) :
    (Fin N → Fin T → Fin D → ℝ) × (Fin N → Fin H → ℝ) ×
      (Fin D → Fin (4 * H) → ℝ) × (Fin H → Fin (4 * H) → ℝ) × (Fin (4 * H) → ℝ) :=
  let s := lstm_backward_state dh x h0 Wx Wh b T
  (fun n t d => (lstm_backward_stepAt dh x h0 Wx Wh b (t : ℕ)).dx n d,
   s.dprev_h, s.dWx, s.dWh, s.db)

/-! ## The captioning model

Modelled from the spec §4.5: `CaptioningRNN` of `cs231n/classifiers/rnn.py` is
not in the source tree.  The model embeds caption tokens, projects image
features to the initial hidden state, runs the LSTM on the caption minus its
final token, projects hidden states to vocabulary logits, and computes a
softmax cross-entropy loss against the caption shifted by one, masked at the
positions whose ground-truth token is the null index.  The notebook (cell 16)
fixes the loss normalization: the masked total is divided by the batch size
`N`. -/

/-- The parameters of the captioning model, as in `CaptioningRNN.params`,
together with the special null and start token indices of its vocabulary. -/
structure CaptioningParams (V W D H : ℕ) where
  null : Fin V
  start : Fin V
  W_embed : Fin V → Fin W → ℝ
  W_proj : Fin D → Fin H → ℝ
  b_proj : Fin H → ℝ
  Wx : Fin W → Fin (4 * H) → ℝ
  Wh : Fin H → Fin (4 * H) → ℝ
  b : Fin (4 * H) → ℝ
  W_vocab : Fin H → Fin V → ℝ
  b_vocab : Fin V → ℝ

/-- The affine projection of image features to the initial hidden state. -/
noncomputable def affineH0 {N D H : ℕ} (features : Fin N → Fin D → ℝ)
    (W_proj : Fin D → Fin H → ℝ) (b_proj : Fin H → ℝ) : Fin N → Fin H → ℝ :=
  fun n hh => (∑ d, features n d * W_proj d hh) + b_proj hh

/-- Modelled from the spec (missing `cs231n/classifiers/rnn.py`): the
vocabulary logits of `CaptioningRNN.loss`.  Captions have `T + 1` tokens; the
LSTM runs on the embedded first `T` tokens (the caption minus its last). -/
noncomputable def captioningScores {V W D H N T : ℕ} (p : CaptioningParams V W D H)
    (features : Fin N → Fin D → ℝ) (captions : Fin N → Fin (T + 1) → Fin V) :
    Fin N → Fin T → Fin V → ℝ :=
  let xEmb : Fin N → Fin T → Fin W → ℝ := fun n t w => p.W_embed (captions n t.castSucc) w
  let h := lstm_forward xEmb (affineH0 features p.W_proj p.b_proj) p.Wx p.Wh p.b
  fun n t v => (∑ hh, h n t hh * p.W_vocab hh v) + p.b_vocab v

/-- Modelled from the spec (missing `cs231n/classifiers/rnn.py`): one
position's contribution to the softmax cross-entropy loss, masked to zero when
the ground-truth next token is the null index. -/
noncomputable def captioningLossTerm {V W D H N T : ℕ} (p : CaptioningParams V W D H)
    (features : Fin N → Fin D → ℝ) (captions : Fin N → Fin (T + 1) → Fin V) :
    Fin N → Fin T → ℝ :=
  fun n t =>
    if captions n t.succ = p.null then 0
    else Real.log (∑ v, Real.exp (captioningScores p features captions n t v))
      - captioningScores p features captions n t (captions n t.succ)

/-- Modelled from the spec (missing `cs231n/classifiers/rnn.py`): the loss of
`CaptioningRNN.loss`, the masked total divided by the batch size. -/
noncomputable def captioningLoss {V W D H N T : ℕ} (p : CaptioningParams V W D H)
    (features : Fin N → Fin D → ℝ) (captions : Fin N → Fin (T + 1) → Fin V) : ℝ :=
  (∑ n, ∑ t, captioningLossTerm p features captions n t) / N

/-- Modelled from the spec (missing `cs231n/classifiers/rnn.py`): the gradient
of the loss with respect to the logits, `(softmax - onehot) / N` at unmasked
positions and zero at masked ones; every parameter gradient the backward pass
returns is assembled from these values. -/
noncomputable def captioningDScores {V W D H N T : ℕ} (p : CaptioningParams V W D H)
    (features : Fin N → Fin D → ℝ) (captions : Fin N → Fin (T + 1) → Fin V) :
    Fin N → Fin T → Fin V → ℝ :=
  fun n t v =>
    if captions n t.succ = p.null then 0
    else (Real.exp (captioningScores p features captions n t v)
            / (∑ u, Real.exp (captioningScores p features captions n t u))
          - if v = captions n t.succ then 1 else 0) / N

/-- The upstream gradient `dscores · W_vocabᵀ` flowing from position `(n, t)`
into the LSTM backward pass; it is the only channel through which that
position influences the gradients of `Wx`, `Wh`, `b`, `W_embed`, `W_proj`,
`b_proj`. -/
noncomputable def captioningDhIn {V W D H N T : ℕ} (p : CaptioningParams V W D H)
    (features : Fin N → Fin D → ℝ) (captions : Fin N → Fin (T + 1) → Fin V) :
    Fin N → Fin T → Fin H → ℝ :=
  fun n t hh => ∑ v, captioningDScores p features captions n t v * p.W_vocab hh v

/-! ## Greedy sampling

Modelled from the spec §4.5 (missing `cs231n/classifiers/rnn.py`): greedy
autoregressive decoding, one sequence at a time: starting from the start
token, embed the current token, run one LSTM cell step, project to logits,
take the arg-max token and append it, stopping at the null token or after a
fixed maximum number of steps. -/

/-- An index of a maximal score (ties broken by choice). -/
noncomputable def argmaxScore {V : ℕ} (null : Fin V) (s : Fin V → ℝ) : Fin V :=
  (Finset.exists_max_image Finset.univ s ⟨null, Finset.mem_univ _⟩).choose

/-- The decoding loop of `CaptioningRNN.sample`, with the remaining step
budget as fuel; tokens are recorded as natural numbers as in the returned
integer caption array. -/
noncomputable def sampleLoop {V W D H : ℕ} (p : CaptioningParams V W D H) :
    ℕ → Fin V → (Fin 1 → Fin H → ℝ) → (Fin 1 → Fin H → ℝ) → List ℕ
  | 0, _, _, _ => []
  | fuel + 1, cur, prev_h, prev_c =>
      let x : Fin 1 → Fin W → ℝ := fun _ w => p.W_embed cur w
      let st := lstm_step_forward x prev_h prev_c p.Wx p.Wh p.b
      let s : Fin V → ℝ := fun v => (∑ hh, st.1 0 hh * p.W_vocab hh v) + p.b_vocab v
      let nxt := argmaxScore p.null s
      (nxt : ℕ) :: (if nxt = p.null then [] else sampleLoop p fuel nxt st.1 st.2)

/-- Modelled from the spec (missing `cs231n/classifiers/rnn.py`):
`CaptioningRNN.sample` on one image feature vector. -/
noncomputable def sample {V W D H : ℕ} (p : CaptioningParams V W D H)
    (features : Fin 1 → Fin D → ℝ) (max_length : ℕ) : List ℕ :=
  sampleLoop p max_length p.start (affineH0 features p.W_proj p.b_proj)
    (fun _ _ => 0)

/-! ## Concrete test data of the notebook

The notebook builds its test inputs with `np.linspace(a, b, num)` reshaped to
the array shapes; entry `k` of `linspace(a, b, num)` is `a + (b-a)*k/(num-1)`.
`c2...` is the data of cell 6 (`N,D,H = 3,4,5`), `c3...` the data of cell 10
(`N,D,H,T = 2,5,4,3`). -/

/-- NumPy `linspace(a, b, num)` at index `k`. -/
noncomputable def linspaceR (a b : ℝ) (num k : ℕ) : ℝ := a + (b - a) * k / (num - 1)

/-- Cell 6: `x = np.linspace(-0.4, 1.2, num=N*D).reshape(N, D)`. -/
noncomputable def c2x : Fin 3 → Fin 4 → ℝ :=
  fun n d => linspaceR (-2/5) (6/5) 12 ((n : ℕ) * 4 + (d : ℕ))

/-- Cell 6: `prev_h = np.linspace(-0.3, 0.7, num=N*H).reshape(N, H)`. -/
noncomputable def c2prevH : Fin 3 → Fin 5 → ℝ :=
  fun n k => linspaceR (-3/10) (7/10) 15 ((n : ℕ) * 5 + (k : ℕ))

/-- Cell 6: `prev_c = np.linspace(-0.4, 0.9, num=N*H).reshape(N, H)`. -/
noncomputable def c2prevC : Fin 3 → Fin 5 → ℝ :=
  fun n k => linspaceR (-2/5) (9/10) 15 ((n : ℕ) * 5 + (k : ℕ))

/-- Cell 6: `Wx = np.linspace(-2.1, 1.3, num=4*D*H).reshape(D, 4*H)`. -/
noncomputable def c2Wx : Fin 4 → Fin (4 * 5) → ℝ :=
  fun d j => linspaceR (-21/10) (13/10) 80 ((d : ℕ) * 20 + (j : ℕ))

/-- Cell 6: `Wh = np.linspace(-0.7, 2.2, num=4*H*H).reshape(H, 4*H)`. -/
noncomputable def c2Wh : Fin 5 → Fin (4 * 5) → ℝ :=
  fun k j => linspaceR (-7/10) (11/5) 100 ((k : ℕ) * 20 + (j : ℕ))

/-- Cell 6: `b = np.linspace(0.3, 0.7, num=4*H)`. -/
noncomputable def c2b : Fin (4 * 5) → ℝ := fun j => linspaceR (3/10) (7/10) 20 (j : ℕ)

/-- Cell 10: `x = np.linspace(-0.4, 0.6, num=N*T*D).reshape(N, T, D)`. -/
noncomputable def c3x : Fin 2 → Fin 3 → Fin 5 → ℝ :=
  fun n t d => linspaceR (-2/5) (3/5) 30 (((n : ℕ) * 3 + (t : ℕ)) * 5 + (d : ℕ))

/-- Cell 10: `h0 = np.linspace(-0.4, 0.8, num=N*H).reshape(N, H)`. -/
noncomputable def c3h0 : Fin 2 → Fin 4 → ℝ :=
  fun n h => linspaceR (-2/5) (4/5) 8 ((n : ℕ) * 4 + (h : ℕ))

/-- Cell 10: `Wx = np.linspace(-0.2, 0.9, num=4*D*H).reshape(D, 4*H)`. -/
noncomputable def c3Wx : Fin 5 → Fin (4 * 4) → ℝ :=
  fun d j => linspaceR (-1/5) (9/10) 80 ((d : ℕ) * 16 + (j : ℕ))

/-- Cell 10: `Wh = np.linspace(-0.3, 0.6, num=4*H*H).reshape(H, 4*H)`. -/
noncomputable def c3Wh : Fin 4 → Fin (4 * 4) → ℝ :=
  fun k j => linspaceR (-3/10) (3/5) 64 ((k : ℕ) * 16 + (j : ℕ))

/-- Cell 10: `b = np.linspace(0.2, 0.7, num=4*H)`. -/
noncomputable def c3b : Fin (4 * 4) → ℝ := fun j => linspaceR (1/5) (7/10) 16 (j : ℕ)

/-- C1: `lstm_step_forward` computes `a = x·Wx + prev_h·Wh + b`, splits `a`
into four `H`-wide blocks in the order (input, forget, output, block-input),
applies `σ` to the first three and `tanh` to the fourth, and returns
`next_c = f ⊙ prev_c + i ⊙ g` and `next_h = o ⊙ tanh(next_c)`. -/
theorem lstm_step_forward_gate_equations {N D H : ℕ} (x : Fin N → Fin D → ℝ)
    (prev_h prev_c : Fin N → Fin H → ℝ) (Wx : Fin D → Fin (4 * H) → ℝ)
    (Wh : Fin H → Fin (4 * H) → ℝ) (b : Fin (4 * H) → ℝ) (n : Fin N) (j : Fin H) :
    (∀ m : Fin (4 * H),
        lstmA x prev_h Wx Wh b n m
          = (∑ d, x n d * Wx d m) + (∑ k, prev_h n k * Wh k m) + b m) ∧
    (blockIdx (H := H) 0 j : ℕ) = (j : ℕ) ∧
    (blockIdx (H := H) 1 j : ℕ) = H + (j : ℕ) ∧
    (blockIdx (H := H) 2 j : ℕ) = 2 * H + (j : ℕ) ∧
    (blockIdx (H := H) 3 j : ℕ) = 3 * H + (j : ℕ) ∧
    (lstm_step_forward x prev_h prev_c Wx Wh b).2 n j
      = sigmoid (lstmA x prev_h Wx Wh b n (blockIdx 1 j)) * prev_c n j
        + sigmoid (lstmA x prev_h Wx Wh b n (blockIdx 0 j))
          * Real.tanh (lstmA x prev_h Wx Wh b n (blockIdx 3 j)) ∧
    (lstm_step_forward x prev_h prev_c Wx Wh b).1 n j
      = sigmoid (lstmA x prev_h Wx Wh b n (blockIdx 2 j))
        * Real.tanh ((lstm_step_forward x prev_h prev_c Wx Wh b).2 n j) := by
  refine ⟨fun m => rfl, by simp [blockIdx], by simp [blockIdx],
    by simp [blockIdx, two_mul], by simp [blockIdx]; exact Or.inl rfl, rfl, rfl⟩

/-- C10: the `rel_error` helper never divides by zero (its denominator is
clamped below by `1e-8`), returns a non-negative rational, and is zero when
both arguments coincide, even on the all-zero array. -/
theorem relError_safe {m n : ℕ} (x y : Fin (m + 1) → Fin (n + 1) → ℚ) :
    (∀ i j, 1 / 100000000 ≤ relDen x y i j ∧ 0 < relDen x y i j) ∧
    0 ≤ relError x y ∧
    relError x x = 0 := by
  have hden : ∀ i j, 1 / 100000000 ≤ relDen x y i j := fun i j => le_max_left _ _
  refine ⟨fun i j => ⟨hden i j, lt_of_lt_of_le (by norm_num) (hden i j)⟩, ?_, ?_⟩
  · unfold relError
    refine le_trans ?_ (Finset.le_sup' _ (Finset.mem_univ ((0, 0) : Fin (m + 1) × Fin (n + 1))))
    exact div_nonneg (abs_nonneg _) (le_trans (by norm_num) (le_max_left _ _))
  · unfold relError
    apply le_antisymm
    · apply Finset.sup'_le
      intro p _
      simp
    · refine le_trans ?_ (Finset.le_sup' _ (Finset.mem_univ ((0, 0) : Fin (m + 1) × Fin (n + 1))))
      simp

/-- Helper: after `k ≤ T` reverse steps, the accumulated weight gradients are
the sums of the per-timestep gradients of the `k` highest timesteps. -/
lemma lstm_backward_state_sums {N T D H : ℕ}
    (dh : Fin N → Fin T → Fin H → ℝ) (x : Fin N → Fin T → Fin D → ℝ)
    (h0 : Fin N → Fin H → ℝ) (Wx : Fin D → Fin (4 * H) → ℝ)
    (Wh : Fin H → Fin (4 * H) → ℝ) (b : Fin (4 * H) → ℝ) :
    ∀ k, k ≤ T →
      (∀ d m, (lstm_backward_state dh x h0 Wx Wh b k).dWx d m =
        ∑ j ∈ Finset.range k,
          (lstm_backward_stepAt dh x h0 Wx Wh b (T - 1 - j)).dWx d m) ∧
      (∀ c m, (lstm_backward_state dh x h0 Wx Wh b k).dWh c m =
        ∑ j ∈ Finset.range k,
          (lstm_backward_stepAt dh x h0 Wx Wh b (T - 1 - j)).dWh c m) ∧
      (∀ m, (lstm_backward_state dh x h0 Wx Wh b k).db m =
        ∑ j ∈ Finset.range k,
          (lstm_backward_stepAt dh x h0 Wx Wh b (T - 1 - j)).db m) := by
  intro k
  induction k with
  | zero =>
      intro _
      refine ⟨fun d m => ?_, fun c m => ?_, fun m => ?_⟩ <;>
        simp [lstm_backward_state]
  | succ k ih =>
      intro hk
      have hk' : k ≤ T := by omega
      have hidx : T - 1 - (T - 1 - k) = k := by omega
      obtain ⟨hWx, hWh, hb⟩ := ih hk'
      have hstep : lstm_backward_stepAt dh x h0 Wx Wh b (T - 1 - k)
          = lstm_step_backward
              (fun n j => dhAt dh (T - 1 - k) n j
                + (lstm_backward_state dh x h0 Wx Wh b k).dprev_h n j)
              (some (lstm_backward_state dh x h0 Wx Wh b k).dprev_c)
              (xAt x (T - 1 - k)) (lstm_states x h0 Wx Wh b (T - 1 - k)).1
              (lstm_states x h0 Wx Wh b (T - 1 - k)).2 Wx Wh b := by
        unfold lstm_backward_stepAt
        rw [hidx]
      refine ⟨fun d m => ?_, fun c m => ?_, fun m => ?_⟩ <;>
        simp only [lstm_backward_state, hstep, hWx, hWh, hb, Finset.sum_range_succ]

/-- Helper: inside the valid range, the zero-extended slice `dh[:, t, :]`
is just `dh` at `t`. -/
lemma dhAt_coe {N T H : ℕ} (dh : Fin N → Fin T → Fin H → ℝ) (t : Fin T) :
    dhAt dh (t : ℕ) = fun n j => dh n t j := by
  funext n j
  simp [dhAt]

/-- C4: `lstm_backward` processes timesteps in strict reverse order: the
carried gradients start at zero (no external gradient enters the cell state at
the last timestep), the backward call for timestep `t` is fed
`dh[:, t, :] + dprev_h` and `dnext_c = dprev_c` where the carried pair is
exactly the output of timestep `t + 1`'s backward call, and the returned
`dWx`, `dWh`, `db` are the sums over all `T` timesteps of the per-timestep
weight gradients. -/
theorem lstm_backward_reverse_order_and_sums {N T D H : ℕ}
    (dh : Fin N → Fin T → Fin H → ℝ) (x : Fin N → Fin T → Fin D → ℝ)
    (h0 : Fin N → Fin H → ℝ) (Wx : Fin D → Fin (4 * H) → ℝ)
    (Wh : Fin H → Fin (4 * H) → ℝ) (b : Fin (4 * H) → ℝ) :
    ((lstm_backward_state dh x h0 Wx Wh b 0).dprev_h = fun _ _ => 0) ∧
    ((lstm_backward_state dh x h0 Wx Wh b 0).dprev_c = fun _ _ => 0) ∧
    (∀ t : Fin T,
      lstm_backward_stepAt dh x h0 Wx Wh b (t : ℕ) =
        lstm_step_backward
          (fun n j => dh n t j +
            (lstm_backward_state dh x h0 Wx Wh b (T - 1 - (t : ℕ))).dprev_h n j)
          (some (lstm_backward_state dh x h0 Wx Wh b (T - 1 - (t : ℕ))).dprev_c)
          (xAt x (t : ℕ)) (lstm_states x h0 Wx Wh b (t : ℕ)).1
          (lstm_states x h0 Wx Wh b (t : ℕ)).2 Wx Wh b) ∧
    (∀ t : ℕ, t + 1 < T →
      (lstm_backward_state dh x h0 Wx Wh b (T - 1 - t)).dprev_h
          = (lstm_backward_stepAt dh x h0 Wx Wh b (t + 1)).dprev_h ∧
      (lstm_backward_state dh x h0 Wx Wh b (T - 1 - t)).dprev_c
          = (lstm_backward_stepAt dh x h0 Wx Wh b (t + 1)).dprev_c) ∧
    (∀ d m, (lstm_backward dh x h0 Wx Wh b).2.2.1 d m
        = ∑ t ∈ Finset.range T, (lstm_backward_stepAt dh x h0 Wx Wh b t).dWx d m) ∧
    (∀ c m, (lstm_backward dh x h0 Wx Wh b).2.2.2.1 c m
        = ∑ t ∈ Finset.range T, (lstm_backward_stepAt dh x h0 Wx Wh b t).dWh c m) ∧
    (∀ m, (lstm_backward dh x h0 Wx Wh b).2.2.2.2 m
        = ∑ t ∈ Finset.range T, (lstm_backward_stepAt dh x h0 Wx Wh b t).db m) := by
  have hs := lstm_backward_state_sums dh x h0 Wx Wh b T le_rfl
  refine ⟨rfl, rfl, ?_, ?_, ?_, ?_, ?_⟩
  · intro t
    simp only [lstm_backward_stepAt, dhAt_coe]
  · intro t ht
    have h1 : T - 1 - t = (T - 1 - (t + 1)) + 1 := by omega
    have h2 : T - 1 - (T - 1 - (t + 1)) = t + 1 := by omega
    rw [h1]
    constructor <;> simp only [lstm_backward_state, lstm_backward_stepAt, h2]
  · intro d m
    rw [show (lstm_backward dh x h0 Wx Wh b).2.2.1
        = (lstm_backward_state dh x h0 Wx Wh b T).dWx from rfl, hs.1 d m]
    exact Finset.sum_range_reflect
      (fun t => (lstm_backward_stepAt dh x h0 Wx Wh b t).dWx d m) T
  · intro c m
    rw [show (lstm_backward dh x h0 Wx Wh b).2.2.2.1
        = (lstm_backward_state dh x h0 Wx Wh b T).dWh from rfl, hs.2.1 c m]
    exact Finset.sum_range_reflect
      (fun t => (lstm_backward_stepAt dh x h0 Wx Wh b t).dWh c m) T
  · intro m
    rw [show (lstm_backward dh x h0 Wx Wh b).2.2.2.2
        = (lstm_backward_state dh x h0 Wx Wh b T).db from rfl, hs.2.2 m]
    exact Finset.sum_range_reflect
      (fun t => (lstm_backward_stepAt dh x h0 Wx Wh b t).db m) T

/-- Witness for C4 at `N = D = H = 1`, `T = 2`, all-zero arrays: the carried
pair fed into timestep `0` is the output of timestep `1`'s backward call. -/
theorem lstm_backward_reverse_order_and_sums_witness :
    ((lstm_backward_state (fun (_ : Fin 1) (_ : Fin 2) (_ : Fin 1) => (0 : ℝ))
        (fun (_ : Fin 1) (_ : Fin 2) (_ : Fin 1) => (0 : ℝ))
        (fun (_ : Fin 1) (_ : Fin 1) => (0 : ℝ))
        (fun (_ : Fin 1) (_ : Fin (4 * 1)) => (0 : ℝ))
        (fun (_ : Fin 1) (_ : Fin (4 * 1)) => (0 : ℝ))
        (fun (_ : Fin (4 * 1)) => (0 : ℝ)) (2 - 1 - 0)).dprev_h
      = (lstm_backward_stepAt (fun (_ : Fin 1) (_ : Fin 2) (_ : Fin 1) => (0 : ℝ))
          (fun (_ : Fin 1) (_ : Fin 2) (_ : Fin 1) => (0 : ℝ))
          (fun (_ : Fin 1) (_ : Fin 1) => (0 : ℝ))
          (fun (_ : Fin 1) (_ : Fin (4 * 1)) => (0 : ℝ))
          (fun (_ : Fin 1) (_ : Fin (4 * 1)) => (0 : ℝ))
          (fun (_ : Fin (4 * 1)) => (0 : ℝ)) (0 + 1)).dprev_h) ∧
    ((lstm_backward_state (fun (_ : Fin 1) (_ : Fin 2) (_ : Fin 1) => (0 : ℝ))
        (fun (_ : Fin 1) (_ : Fin 2) (_ : Fin 1) => (0 : ℝ))
        (fun (_ : Fin 1) (_ : Fin 1) => (0 : ℝ))
        (fun (_ : Fin 1) (_ : Fin (4 * 1)) => (0 : ℝ))
        (fun (_ : Fin 1) (_ : Fin (4 * 1)) => (0 : ℝ))
        (fun (_ : Fin (4 * 1)) => (0 : ℝ)) (2 - 1 - 0)).dprev_c
      = (lstm_backward_stepAt (fun (_ : Fin 1) (_ : Fin 2) (_ : Fin 1) => (0 : ℝ))
          (fun (_ : Fin 1) (_ : Fin 2) (_ : Fin 1) => (0 : ℝ))
          (fun (_ : Fin 1) (_ : Fin 1) => (0 : ℝ))
          (fun (_ : Fin 1) (_ : Fin (4 * 1)) => (0 : ℝ))
          (fun (_ : Fin 1) (_ : Fin (4 * 1)) => (0 : ℝ))
          (fun (_ : Fin (4 * 1)) => (0 : ℝ)) (0 + 1)).dprev_c) :=
  (lstm_backward_reverse_order_and_sums
    (fun (_ : Fin 1) (_ : Fin 2) (_ : Fin 1) => (0 : ℝ))
    (fun (_ : Fin 1) (_ : Fin 2) (_ : Fin 1) => (0 : ℝ))
    (fun (_ : Fin 1) (_ : Fin 1) => (0 : ℝ))
    (fun (_ : Fin 1) (_ : Fin (4 * 1)) => (0 : ℝ))
    (fun (_ : Fin 1) (_ : Fin (4 * 1)) => (0 : ℝ))
    (fun (_ : Fin (4 * 1)) => (0 : ℝ))).2.2.2.1 0 (by norm_num)

/-- C8: `lstm_step_backward` accepts an absent `dnext_c` and then returns
exactly the same six gradients as when `dnext_c` is the all-zero array. -/
theorem lstm_step_backward_absent_dnext_c {N D H : ℕ}
    (dnext_h : Fin N → Fin H → ℝ) (x : Fin N → Fin D → ℝ)
    (prev_h prev_c : Fin N → Fin H → ℝ) (Wx : Fin D → Fin (4 * H) → ℝ)
    (Wh : Fin H → Fin (4 * H) → ℝ) (b : Fin (4 * H) → ℝ) :
    lstm_step_backward dnext_h none x prev_h prev_c Wx Wh b
      = lstm_step_backward dnext_h (some fun _ _ => 0) x prev_h prev_c Wx Wh b := rfl

/-- C6: a caption position whose ground-truth next token is the null index
contributes exactly zero to the loss (its loss term is zero) and exactly zero
to every returned gradient: its logit gradient vanishes, and so does the
upstream gradient it sends into the LSTM backward pass, which is the only
channel from that position into the remaining parameter gradients. -/
theorem captioning_null_position_contributes_zero {V W D H N T : ℕ}
    (p : CaptioningParams V W D H) (features : Fin N → Fin D → ℝ)
    (captions : Fin N → Fin (T + 1) → Fin V) (n : Fin N) (t : Fin T)
    (hmask : captions n t.succ = p.null) :
    captioningLossTerm p features captions n t = 0 ∧
    (∀ v, captioningDScores p features captions n t v = 0) ∧
    (∀ hh, captioningDhIn p features captions n t hh = 0) := by
  refine ⟨?_, ?_, ?_⟩
  · simp [captioningLossTerm, hmask]
  · intro v
    simp [captioningDScores, hmask]
  · intro hh
    simp [captioningDhIn, captioningDScores, hmask]

/-- Witness for C6 on the one-word vocabulary whose only token is the null
index, with all-zero parameters and features. -/
theorem captioning_null_position_contributes_zero_witness :
    captioningLossTerm
      (⟨0, 0, fun _ _ => 0, fun _ _ => 0, fun _ => 0, fun _ _ => 0, fun _ _ => 0,
        fun _ => 0, fun _ _ => 0, fun _ => 0⟩ : CaptioningParams 1 1 1 1)
      (fun (_ : Fin 1) (_ : Fin 1) => (0 : ℝ))
      (fun (_ : Fin 1) (_ : Fin (1 + 1)) => (0 : Fin 1)) 0 0 = 0 :=
  (captioning_null_position_contributes_zero
    (⟨0, 0, fun _ _ => 0, fun _ _ => 0, fun _ => 0, fun _ _ => 0, fun _ _ => 0,
      fun _ => 0, fun _ _ => 0, fun _ => 0⟩ : CaptioningParams 1 1 1 1)
    (fun (_ : Fin 1) (_ : Fin 1) => (0 : ℝ))
    (fun (_ : Fin 1) (_ : Fin (1 + 1)) => (0 : Fin 1)) 0 0 rfl).1

/-- Helper: the decoding loop emits at most `fuel` tokens, all of them smaller
than the vocabulary size. -/
lemma sampleLoop_bounds {V W D H : ℕ} (p : CaptioningParams V W D H) :
    ∀ (fuel : ℕ) (cur : Fin V) (ph pc : Fin 1 → Fin H → ℝ),
      (sampleLoop p fuel cur ph pc).length ≤ fuel ∧
      ∀ tok ∈ sampleLoop p fuel cur ph pc, tok < V := by
  intro fuel
  induction fuel with
  | zero =>
      intro cur ph pc
      simp [sampleLoop]
  | succ fuel ih =>
      intro cur ph pc
      constructor
      · simp only [sampleLoop, List.length_cons]
        split
        · simp
        · exact Nat.succ_le_succ (ih _ _ _).1
      · intro tok htok
        simp only [sampleLoop, List.mem_cons] at htok
        rcases htok with h | h
        · exact h ▸ Fin.is_lt _
        · split at h
          · simp at h
          · exact (ih _ _ _).2 tok h

/-- C7: greedy sampling terminates within the fixed maximum number of steps
(it can only stop earlier, which happens when the null token is produced) and
every token index in the returned caption is a valid vocabulary index. -/
theorem sample_terminates_with_valid_tokens {V W D H : ℕ}
    (p : CaptioningParams V W D H) (features : Fin 1 → Fin D → ℝ)
    (max_length : ℕ) :
    (sample p features max_length).length ≤ max_length ∧
    ∀ k : Fin (sample p features max_length).length,
      (sample p features max_length).get k < V := by
  obtain ⟨hlen, hmem⟩ := sampleLoop_bounds p max_length p.start
    (affineH0 features p.W_proj p.b_proj) (fun _ _ => 0)
  exact ⟨hlen, fun k => hmem _ (List.get_mem _ _ k.2)⟩

/-- Helper: bounds on `exp r` scale to bounds on `exp (k·r)` by powering. -/
lemma exp_scaled_bounds (q r : ℝ) (k : ℕ) (hq : q = k * r) (l u : ℝ) (hl : 0 < l)
    (h1 : l ≤ Real.exp r) (h2 : Real.exp r ≤ u) :
    l ^ k ≤ Real.exp q ∧ Real.exp q ≤ u ^ k := by
  subst hq
  rw [Real.exp_nat_mul]
  exact ⟨pow_le_pow_left₀ hl.le h1 k, pow_le_pow_left₀ (Real.exp_pos r).le h2 k⟩

/-- Helper: bounds on `exp z` give bounds on `sigmoid z = exp z / (exp z + 1)`. -/
lemma sigmoid_lb_ub (z l u : ℝ) (hl : 0 < l) (h1 : l ≤ Real.exp z) (h2 : Real.exp z ≤ u) :
    l / (l + 1) ≤ sigmoid z ∧ sigmoid z ≤ u / (u + 1) := by
  have hez := Real.exp_pos z
  have hs : sigmoid z = Real.exp z / (Real.exp z + 1) := by
    unfold sigmoid
    rw [Real.exp_neg]
    field_simp
  rw [hs]
  constructor
  · rw [div_le_div_iff₀ (by linarith) (by linarith)]
    nlinarith
  · rw [div_le_div_iff₀ (by linarith) (by linarith)]
    nlinarith

/-- Helper: bounds on `exp (2z)` give bounds on
`tanh z = (exp (2z) - 1) / (exp (2z) + 1)`. -/
lemma tanh_lb_ub (z q l u : ℝ) (hq : q = 2 * z) (hl : 0 < l)
    (h1 : l ≤ Real.exp q) (h2 : Real.exp q ≤ u) :
    (l - 1) / (l + 1) ≤ Real.tanh z ∧ Real.tanh z ≤ (u - 1) / (u + 1) := by
  subst hq
  have hez := Real.exp_pos (2 * z)
  have hz := Real.exp_pos z
  have ht : Real.tanh z = (Real.exp (2 * z) - 1) / (Real.exp (2 * z) + 1) := by
    rw [Real.tanh_eq_sinh_div_cosh, Real.sinh_eq, Real.cosh_eq, Real.exp_neg, two_mul,
      Real.exp_add]
    field_simp
  rw [ht]
  constructor
  · rw [div_le_div_iff₀ (by linarith) (by linarith)]
    nlinarith
  · rw [div_le_div_iff₀ (by linarith) (by linarith)]
    nlinarith

/-- C2: on the notebook's first concrete scenario (`N,D,H = 3,4,5`, all inputs
linearly spaced), `lstm_step_forward` returns `next_h[0,0] ≈ 0.24635157` and
`next_c[0,0] ≈ 0.32986176`, each within relative error `1e-7`. -/
theorem lstm_step_forward_scenario1 :
    |(lstm_step_forward c2x c2prevH c2prevC c2Wx c2Wh c2b).1 0 0 - 0.24635157|
      ≤ 0.24635157 / 10 ^ 7 ∧
    |(lstm_step_forward c2x c2prevH c2prevC c2Wx c2Wh c2b).2 0 0 - 0.32986176|
      ≤ 0.32986176 / 10 ^ 7 := by
  have vf5 : ∀ k : Fin 5, ((k : Fin 5) : ℕ) = (k : ℕ) := fun k => rfl
  have hai : lstmA c2x c2prevH c2Wx c2Wh c2b 0 (blockIdx 0 0) = ((570137/364980) : ℝ) := by
    simp only [lstmA]
    rw [Fin.sum_univ_four, Fin.sum_univ_five]
    norm_num [c2x, c2prevH, c2Wx, c2Wh, c2b, linspaceR, blockIdx,
      show ((3 : Fin 4) : ℕ) = 3 from rfl, show ((3 : Fin 5) : ℕ) = 3 from rfl,
      show ((4 : Fin 5) : ℕ) = 4 from rfl]
  have haf : lstmA c2x c2prevH c2Wx c2Wh c2b 0 (blockIdx 1 0) = ((14518877/10401930) : ℝ) := by
    simp only [lstmA]
    rw [Fin.sum_univ_four, Fin.sum_univ_five]
    norm_num [c2x, c2prevH, c2Wx, c2Wh, c2b, linspaceR, blockIdx,
      show ((3 : Fin 4) : ℕ) = 3 from rfl, show ((3 : Fin 5) : ℕ) = 3 from rfl,
      show ((4 : Fin 5) : ℕ) = 4 from rfl]
  have hao : lstmA c2x c2prevH c2Wx c2Wh c2b 0 (blockIdx 2 0) = ((3653957/2971980) : ℝ) := by
    simp only [lstmA]
    rw [Fin.sum_univ_four, Fin.sum_univ_five]
    norm_num [c2x, c2prevH, c2Wx, c2Wh, c2b, linspaceR, blockIdx,
      show ((3 : Fin 4) : ℕ) = 3 from rfl, show ((3 : Fin 5) : ℕ) = 3 from rfl,
      show ((4 : Fin 5) : ℕ) = 4 from rfl]
  have hag : lstmA c2x c2prevH c2Wx c2Wh c2b 0 (blockIdx 3 0) = ((614379/577885) : ℝ) := by
    simp only [lstmA]
    rw [Fin.sum_univ_four, Fin.sum_univ_five]
    norm_num [c2x, c2prevH, c2Wx, c2Wh, c2b, linspaceR, blockIdx,
      show ((3 : Fin 4) : ℕ) = 3 from rfl, show ((3 : Fin 5) : ℕ) = 3 from rfl,
      show ((4 : Fin 5) : ℕ) = 4 from rfl]
  have hstepC : (lstm_step_forward c2x c2prevH c2prevC c2Wx c2Wh c2b).2 0 0
      = sigmoid ((14518877/10401930)) * (-2/5) + sigmoid ((570137/364980)) * Real.tanh ((614379/577885)) := by
    show sigmoid (lstmA c2x c2prevH c2Wx c2Wh c2b 0 (blockIdx 1 0)) * c2prevC 0 0
        + sigmoid (lstmA c2x c2prevH c2Wx c2Wh c2b 0 (blockIdx 0 0))
          * Real.tanh (lstmA c2x c2prevH c2Wx c2Wh c2b 0 (blockIdx 3 0)) = _
    rw [hai, haf, hag, show c2prevC 0 0 = (-2/5 : ℝ) from by norm_num [c2prevC, linspaceR]]
  have hstepH : (lstm_step_forward c2x c2prevH c2prevC c2Wx c2Wh c2b).1 0 0
      = sigmoid ((3653957/2971980))
        * Real.tanh ((lstm_step_forward c2x c2prevH c2prevC c2Wx c2Wh c2b).2 0 0) := by
    show sigmoid (lstmA c2x c2prevH c2Wx c2Wh c2b 0 (blockIdx 2 0))
        * Real.tanh ((lstm_step_forward c2x c2prevH c2prevC c2Wx c2Wh c2b).2 0 0) = _
    rw [hao]

  have hTI1 : ((109188461287/50000000000) : ℝ) ≤ Real.exp ((570137/729960)) ∧ Real.exp ((570137/729960)) ≤ ((8735076903/4000000000) : ℝ) := by
    have h := @Real.exp_bound ((570137/729960) : ℝ)
      (by rw [abs_of_pos (by norm_num : (0:ℝ) < (570137/729960))]; norm_num) 14 (by norm_num)
    rw [abs_of_pos (by norm_num : (0:ℝ) < (570137/729960)), abs_sub_le_iff] at h
    obtain ⟨h1, h2⟩ := h
    simp only [Finset.sum_range_succ, Finset.sum_range_zero, Nat.factorial,
      Nat.succ_eq_add_one] at h1 h2
    norm_num at h1 h2
    constructor <;> linarith
  have hSI1 : ((109188461287/50000000000) : ℝ) ^ 2 ≤ Real.exp ((570137/364980)) ∧
      Real.exp ((570137/364980)) ≤ ((8735076903/4000000000) : ℝ) ^ 2 :=
    exp_scaled_bounds ((570137/364980)) ((570137/729960)) 2 (by norm_num) ((109188461287/50000000000)) ((8735076903/4000000000))
      (by norm_num) hTI1.1 hTI1.2
  have hSigI1 : ((3306620667/4000000000) : ℝ) ≤ sigmoid ((570137/364980)) ∧ sigmoid ((570137/364980)) ≤ ((20666379169/25000000000) : ℝ) := by
    obtain ⟨ha, hb⟩ := sigmoid_lb_ub ((570137/364980)) (((109188461287/50000000000) : ℝ) ^ 2) (((8735076903/4000000000) : ℝ) ^ 2) (by norm_num) hSI1.1 hSI1.2
    exact ⟨le_trans (by norm_num) ha, le_trans hb (by norm_num)⟩
  have hTF1 : ((20095150409/10000000000) : ℝ) ≤ Real.exp ((14518877/20803860)) ∧ Real.exp ((14518877/20803860)) ≤ ((200951504091/100000000000) : ℝ) := by
    have h := @Real.exp_bound ((14518877/20803860) : ℝ)
      (by rw [abs_of_pos (by norm_num : (0:ℝ) < (14518877/20803860))]; norm_num) 14 (by norm_num)
    rw [abs_of_pos (by norm_num : (0:ℝ) < (14518877/20803860)), abs_sub_le_iff] at h
    obtain ⟨h1, h2⟩ := h
    simp only [Finset.sum_range_succ, Finset.sum_range_zero, Nat.factorial,
      Nat.succ_eq_add_one] at h1 h2
    norm_num at h1 h2
    constructor <;> linarith
  have hSF1 : ((20095150409/10000000000) : ℝ) ^ 2 ≤ Real.exp ((14518877/10401930)) ∧
      Real.exp ((14518877/10401930)) ≤ ((200951504091/100000000000) : ℝ) ^ 2 :=
    exp_scaled_bounds ((14518877/10401930)) ((14518877/20803860)) 2 (by norm_num) ((20095150409/10000000000)) ((200951504091/100000000000))
      (by norm_num) hTF1.1 hTF1.2
  have hSigF1 : ((40075723617/50000000000) : ℝ) ≤ sigmoid ((14518877/10401930)) ∧ sigmoid ((14518877/10401930)) ≤ ((16030289447/20000000000) : ℝ) := by
    obtain ⟨ha, hb⟩ := sigmoid_lb_ub ((14518877/10401930)) (((20095150409/10000000000) : ℝ) ^ 2) (((200951504091/100000000000) : ℝ) ^ 2) (by norm_num) hSF1.1 hSF1.2
    exact ⟨le_trans (by norm_num) ha, le_trans hb (by norm_num)⟩
  have hTO1 : ((184916549423/100000000000) : ℝ) ≤ Real.exp ((3653957/5943960)) ∧ Real.exp ((3653957/5943960)) ≤ ((11557284339/6250000000) : ℝ) := by
    have h := @Real.exp_bound ((3653957/5943960) : ℝ)
      (by rw [abs_of_pos (by norm_num : (0:ℝ) < (3653957/5943960))]; norm_num) 14 (by norm_num)
    rw [abs_of_pos (by norm_num : (0:ℝ) < (3653957/5943960)), abs_sub_le_iff] at h
    obtain ⟨h1, h2⟩ := h
    simp only [Finset.sum_range_succ, Finset.sum_range_zero, Nat.factorial,
      Nat.succ_eq_add_one] at h1 h2
    norm_num at h1 h2
    constructor <;> linarith
  have hSO1 : ((184916549423/100000000000) : ℝ) ^ 2 ≤ Real.exp ((3653957/2971980)) ∧
      Real.exp ((3653957/2971980)) ≤ ((11557284339/6250000000) : ℝ) ^ 2 :=
    exp_scaled_bounds ((3653957/2971980)) ((3653957/5943960)) 2 (by norm_num) ((184916549423/100000000000)) ((11557284339/6250000000))
      (by norm_num) hTO1.1 hTO1.2
  have hSigO1 : ((19343140173/25000000000) : ℝ) ≤ sigmoid ((3653957/2971980)) ∧ sigmoid ((3653957/2971980)) ≤ ((77372560693/100000000000) : ℝ) := by
    obtain ⟨ha, hb⟩ := sigmoid_lb_ub ((3653957/2971980)) (((184916549423/100000000000) : ℝ) ^ 2) (((11557284339/6250000000) : ℝ) ^ 2) (by norm_num) hSO1.1 hSO1.2
    exact ⟨le_trans (by norm_num) ha, le_trans hb (by norm_num)⟩
  have hTG1 : ((203148553343/100000000000) : ℝ) ≤ Real.exp ((409586/577885)) ∧ Real.exp ((409586/577885)) ≤ ((1587098073/781250000) : ℝ) := by
    have h := @Real.exp_bound ((409586/577885) : ℝ)
      (by rw [abs_of_pos (by norm_num : (0:ℝ) < (409586/577885))]; norm_num) 14 (by norm_num)
    rw [abs_of_pos (by norm_num : (0:ℝ) < (409586/577885)), abs_sub_le_iff] at h
    obtain ⟨h1, h2⟩ := h
    simp only [Finset.sum_range_succ, Finset.sum_range_zero, Nat.factorial,
      Nat.succ_eq_add_one] at h1 h2
    norm_num at h1 h2
    constructor <;> linarith
  have hSG1 : ((203148553343/100000000000) : ℝ) ^ 3 ≤ Real.exp ((1228758/577885)) ∧
      Real.exp ((1228758/577885)) ≤ ((1587098073/781250000) : ℝ) ^ 3 :=
    exp_scaled_bounds ((1228758/577885)) ((409586/577885)) 3 (by norm_num) ((203148553343/100000000000)) ((1587098073/781250000))
      (by norm_num) hTG1.1 hTG1.2
  have hTanG1 : ((39343342801/50000000000) : ℝ) ≤ Real.tanh ((614379/577885)) ∧ Real.tanh ((614379/577885)) ≤ ((78686685603/100000000000) : ℝ) := by
    obtain ⟨ha, hb⟩ := tanh_lb_ub ((614379/577885)) ((1228758/577885)) (((203148553343/100000000000) : ℝ) ^ 3) (((1587098073/781250000) : ℝ) ^ 3) (by norm_num)
      (by norm_num) hSG1.1 hSG1.2
    exact ⟨le_trans (by norm_num) ha, le_trans hb (by norm_num)⟩
  have hTNL1 : ((96712874453/50000000000) : ℝ) ≤ Real.exp ((32986176313/50000000000)) ∧ Real.exp ((32986176313/50000000000)) ≤ ((193425748907/100000000000) : ℝ) := by
    have h := @Real.exp_bound ((32986176313/50000000000) : ℝ)
      (by rw [abs_of_pos (by norm_num : (0:ℝ) < (32986176313/50000000000))]; norm_num) 14 (by norm_num)
    rw [abs_of_pos (by norm_num : (0:ℝ) < (32986176313/50000000000)), abs_sub_le_iff] at h
    obtain ⟨h1, h2⟩ := h
    simp only [Finset.sum_range_succ, Finset.sum_range_zero, Nat.factorial,
      Nat.succ_eq_add_one] at h1 h2
    norm_num at h1 h2
    constructor <;> linarith
  have hTNU1 : ((96712874459/50000000000) : ℝ) ≤ Real.exp ((8246544079/12500000000)) ∧ Real.exp ((8246544079/12500000000)) ≤ ((193425748919/100000000000) : ℝ) := by
    have h := @Real.exp_bound ((8246544079/12500000000) : ℝ)
      (by rw [abs_of_pos (by norm_num : (0:ℝ) < (8246544079/12500000000))]; norm_num) 14 (by norm_num)
    rw [abs_of_pos (by norm_num : (0:ℝ) < (8246544079/12500000000)), abs_sub_le_iff] at h
    obtain ⟨h1, h2⟩ := h
    simp only [Finset.sum_range_succ, Finset.sum_range_zero, Nat.factorial,
      Nat.succ_eq_add_one] at h1 h2
    norm_num at h1 h2
    constructor <;> linarith

  have hnc : ((32986176313/100000000000) : ℝ) ≤ sigmoid ((14518877/10401930)) * (-2/5) + sigmoid ((570137/364980)) * Real.tanh ((614379/577885)) ∧
      (sigmoid ((14518877/10401930)) * (-2/5) + sigmoid ((570137/364980)) * Real.tanh ((614379/577885))) ≤ ((8246544079/25000000000) : ℝ) := by
    have hpl : ((3306620667/4000000000) : ℝ) * ((39343342801/50000000000)) ≤ sigmoid ((570137/364980)) * Real.tanh ((614379/577885)) :=
      mul_le_mul hSigI1.1 hTanG1.1 (by norm_num) (le_trans (by norm_num) hSigI1.1)
    have hpu : sigmoid ((570137/364980)) * Real.tanh ((614379/577885)) ≤ ((20666379169/25000000000) : ℝ) * ((78686685603/100000000000)) :=
      mul_le_mul hSigI1.2 hTanG1.2 (le_trans (by norm_num) hTanG1.1) (by norm_num)
    constructor <;> nlinarith [hSigF1.1, hSigF1.2]
  have hexp_lo : ((96712874453/50000000000) : ℝ) ≤ Real.exp (2 * (sigmoid ((14518877/10401930)) * (-2/5) + sigmoid ((570137/364980)) * Real.tanh ((614379/577885)))) := by
    have hm : ((32986176313/50000000000) : ℝ) ≤ 2 * (sigmoid ((14518877/10401930)) * (-2/5) + sigmoid ((570137/364980)) * Real.tanh ((614379/577885))) := by linarith [hnc.1]
    exact le_trans hTNL1.1 (Real.exp_le_exp.mpr hm)
  have hexp_hi : Real.exp (2 * (sigmoid ((14518877/10401930)) * (-2/5) + sigmoid ((570137/364980)) * Real.tanh ((614379/577885)))) ≤ ((193425748919/100000000000) : ℝ) := by
    have hm : 2 * (sigmoid ((14518877/10401930)) * (-2/5) + sigmoid ((570137/364980)) * Real.tanh ((614379/577885))) ≤ ((8246544079/12500000000) : ℝ) := by linarith [hnc.2]
    exact le_trans (Real.exp_le_exp.mpr hm) hTNU1.2
  have hTanNC : ((6367931189/20000000000) : ℝ) ≤ Real.tanh (sigmoid ((14518877/10401930)) * (-2/5) + sigmoid ((570137/364980)) * Real.tanh ((614379/577885))) ∧
      Real.tanh (sigmoid ((14518877/10401930)) * (-2/5) + sigmoid ((570137/364980)) * Real.tanh ((614379/577885))) ≤ ((31839655949/100000000000) : ℝ) := by
    obtain ⟨ha, hb⟩ := tanh_lb_ub (sigmoid ((14518877/10401930)) * (-2/5) + sigmoid ((570137/364980)) * Real.tanh ((614379/577885))) (2 * (sigmoid ((14518877/10401930)) * (-2/5) + sigmoid ((570137/364980)) * Real.tanh ((614379/577885))))
      ((96712874453/50000000000)) ((193425748919/100000000000)) rfl (by norm_num) hexp_lo hexp_hi
    exact ⟨le_trans (by norm_num) ha, le_trans hb (by norm_num)⟩
  constructor
  · rw [hstepH, hstepC, abs_le]
    have hl : ((19343140173/25000000000) : ℝ) * ((6367931189/20000000000)) ≤ sigmoid ((3653957/2971980)) * Real.tanh (sigmoid ((14518877/10401930)) * (-2/5) + sigmoid ((570137/364980)) * Real.tanh ((614379/577885))) :=
      mul_le_mul hSigO1.1 hTanNC.1 (by norm_num) (le_trans (by norm_num) hSigO1.1)
    have hu : sigmoid ((3653957/2971980)) * Real.tanh (sigmoid ((14518877/10401930)) * (-2/5) + sigmoid ((570137/364980)) * Real.tanh ((614379/577885))) ≤ ((77372560693/100000000000) : ℝ) * ((31839655949/100000000000)) :=
      mul_le_mul hSigO1.2 hTanNC.2 (le_trans (by norm_num) hTanNC.1) (by norm_num)
    constructor <;> nlinarith
  · rw [hstepC, abs_le]
    constructor <;> nlinarith [hnc.1, hnc.2]


/-- C3: `lstm_forward` takes no initial cell state argument and starts the
recurrence from the zero cell state; on the notebook's second concrete
scenario (`N,D,H,T = 2,5,4,3`, all inputs linearly spaced) the returned
hidden tensor satisfies `h[0,0,0] ≈ 0.01764008` within relative error
`1e-6`. -/
theorem lstm_forward_scenario2 :
    (∀ n j, (lstm_states c3x c3h0 c3Wx c3Wh c3b 0).2 n j = 0) ∧
    |lstm_forward c3x c3h0 c3Wx c3Wh c3b 0 0 0 - 0.01764008|
      ≤ 0.01764008 / 10 ^ 6 := by
  have hai : lstmA (xAt c3x 0) c3h0 c3Wx c3Wh c3b 0 (blockIdx 0 0) = ((3351/80185) : ℝ) := by
    simp only [lstmA]
    rw [Fin.sum_univ_five, Fin.sum_univ_four]
    norm_num [xAt, c3x, c3h0, c3Wx, c3Wh, c3b, linspaceR, blockIdx,
      show ((3 : Fin 4) : ℕ) = 3 from rfl, show ((3 : Fin 5) : ℕ) = 3 from rfl,
      show ((4 : Fin 5) : ℕ) = 4 from rfl]
  have haf : lstmA (xAt c3x 0) c3h0 c3Wx c3Wh c3b 0 (blockIdx 1 0) = ((84673/1683885) : ℝ) := by
    simp only [lstmA]
    rw [Fin.sum_univ_five, Fin.sum_univ_four]
    norm_num [xAt, c3x, c3h0, c3Wx, c3Wh, c3b, linspaceR, blockIdx,
      show ((3 : Fin 4) : ℕ) = 3 from rfl, show ((3 : Fin 5) : ℕ) = 3 from rfl,
      show ((4 : Fin 5) : ℕ) = 4 from rfl]
  have hao : lstmA (xAt c3x 0) c3h0 c3Wx c3Wh c3b 0 (blockIdx 2 0) = ((19795/336777) : ℝ) := by
    simp only [lstmA]
    rw [Fin.sum_univ_five, Fin.sum_univ_four]
    norm_num [xAt, c3x, c3h0, c3Wx, c3Wh, c3b, linspaceR, blockIdx,
      show ((3 : Fin 4) : ℕ) = 3 from rfl, show ((3 : Fin 5) : ℕ) = 3 from rfl,
      show ((4 : Fin 5) : ℕ) = 4 from rfl]
  have hag : lstmA (xAt c3x 0) c3h0 c3Wx c3Wh c3b 0 (blockIdx 3 0) = ((37759/561295) : ℝ) := by
    simp only [lstmA]
    rw [Fin.sum_univ_five, Fin.sum_univ_four]
    norm_num [xAt, c3x, c3h0, c3Wx, c3Wh, c3b, linspaceR, blockIdx,
      show ((3 : Fin 4) : ℕ) = 3 from rfl, show ((3 : Fin 5) : ℕ) = 3 from rfl,
      show ((4 : Fin 5) : ℕ) = 4 from rfl]
  have hstep : lstm_forward c3x c3h0 c3Wx c3Wh c3b 0 0 0
      = sigmoid ((19795/336777)) * Real.tanh (sigmoid ((3351/80185)) * Real.tanh ((37759/561295))) := by
    show sigmoid (lstmA (xAt c3x 0) c3h0 c3Wx c3Wh c3b 0 (blockIdx 2 0))
        * Real.tanh (sigmoid (lstmA (xAt c3x 0) c3h0 c3Wx c3Wh c3b 0 (blockIdx 1 0)) * 0
          + sigmoid (lstmA (xAt c3x 0) c3h0 c3Wx c3Wh c3b 0 (blockIdx 0 0))
            * Real.tanh (lstmA (xAt c3x 0) c3h0 c3Wx c3Wh c3b 0 (blockIdx 3 0))) = _
    rw [hai, haf, hao, hag, mul_zero, zero_add]

  have hTI2 : ((52133819459/50000000000) : ℝ) ≤ Real.exp ((3351/80185)) ∧ Real.exp ((3351/80185)) ≤ ((104267638919/100000000000) : ℝ) := by
    have h := @Real.exp_bound ((3351/80185) : ℝ)
      (by rw [abs_of_pos (by norm_num : (0:ℝ) < (3351/80185))]; norm_num) 14 (by norm_num)
    rw [abs_of_pos (by norm_num : (0:ℝ) < (3351/80185)), abs_sub_le_iff] at h
    obtain ⟨h1, h2⟩ := h
    simp only [Finset.sum_range_succ, Finset.sum_range_zero, Nat.factorial,
      Nat.succ_eq_add_one] at h1 h2
    norm_num at h1 h2
    constructor <;> linarith
  have hSigI2 : ((12761154859/25000000000) : ℝ) ≤ sigmoid ((3351/80185)) ∧ sigmoid ((3351/80185)) ≤ ((51044619437/100000000000) : ℝ) := by
    obtain ⟨ha, hb⟩ := sigmoid_lb_ub ((3351/80185)) (((52133819459/50000000000) : ℝ)) (((104267638919/100000000000) : ℝ)) (by norm_num) hTI2.1 hTI2.2
    exact ⟨le_trans (by norm_num) ha, le_trans hb (by norm_num)⟩
  have hTF2 : ((52578501433/50000000000) : ℝ) ≤ Real.exp ((84673/1683885)) ∧ Real.exp ((84673/1683885)) ≤ ((105157002867/100000000000) : ℝ) := by
    have h := @Real.exp_bound ((84673/1683885) : ℝ)
      (by rw [abs_of_pos (by norm_num : (0:ℝ) < (84673/1683885))]; norm_num) 14 (by norm_num)
    rw [abs_of_pos (by norm_num : (0:ℝ) < (84673/1683885)), abs_sub_le_iff] at h
    obtain ⟨h1, h2⟩ := h
    simp only [Finset.sum_range_succ, Finset.sum_range_zero, Nat.factorial,
      Nat.succ_eq_add_one] at h1 h2
    norm_num at h1 h2
    constructor <;> linarith
  have hSigF2 : ((51256843001/100000000000) : ℝ) ≤ sigmoid ((84673/1683885)) ∧ sigmoid ((84673/1683885)) ≤ ((25628421501/50000000000) : ℝ) := by
    obtain ⟨ha, hb⟩ := sigmoid_lb_ub ((84673/1683885)) (((52578501433/50000000000) : ℝ)) (((105157002867/100000000000) : ℝ)) (by norm_num) hTF2.1 hTF2.2
    exact ⟨le_trans (by norm_num) ha, le_trans hb (by norm_num)⟩
  have hTO2 : ((21210790551/20000000000) : ℝ) ≤ Real.exp ((19795/336777)) ∧ Real.exp ((19795/336777)) ≤ ((26513488189/25000000000) : ℝ) := by
    have h := @Real.exp_bound ((19795/336777) : ℝ)
      (by rw [abs_of_pos (by norm_num : (0:ℝ) < (19795/336777))]; norm_num) 14 (by norm_num)
    rw [abs_of_pos (by norm_num : (0:ℝ) < (19795/336777)), abs_sub_le_iff] at h
    obtain ⟨h1, h2⟩ := h
    simp only [Finset.sum_range_succ, Finset.sum_range_zero, Nat.factorial,
      Nat.succ_eq_add_one] at h1 h2
    norm_num at h1 h2
    constructor <;> linarith
  have hSigO2 : ((25734510631/50000000000) : ℝ) ≤ sigmoid ((19795/336777)) ∧ sigmoid ((19795/336777)) ≤ ((51469021263/100000000000) : ℝ) := by
    obtain ⟨ha, hb⟩ := sigmoid_lb_ub ((19795/336777)) (((21210790551/20000000000) : ℝ)) (((26513488189/25000000000) : ℝ)) (by norm_num) hTO2.1 hTO2.2
    exact ⟨le_trans (by norm_num) ha, le_trans hb (by norm_num)⟩
  have hTG2 : ((114401321221/100000000000) : ℝ) ≤ Real.exp ((75518/561295)) ∧ Real.exp ((75518/561295)) ≤ ((57200660611/50000000000) : ℝ) := by
    have h := @Real.exp_bound ((75518/561295) : ℝ)
      (by rw [abs_of_pos (by norm_num : (0:ℝ) < (75518/561295))]; norm_num) 14 (by norm_num)
    rw [abs_of_pos (by norm_num : (0:ℝ) < (75518/561295)), abs_sub_le_iff] at h
    obtain ⟨h1, h2⟩ := h
    simp only [Finset.sum_range_succ, Finset.sum_range_zero, Nat.factorial,
      Nat.succ_eq_add_one] at h1 h2
    norm_num at h1 h2
    constructor <;> linarith
  have hTanG2 : ((3358496379/50000000000) : ℝ) ≤ Real.tanh ((37759/561295)) ∧ Real.tanh ((37759/561295)) ≤ ((167924819/2500000000) : ℝ) := by
    obtain ⟨ha, hb⟩ := tanh_lb_ub ((37759/561295)) ((75518/561295)) (((114401321221/100000000000) : ℝ)) (((57200660611/50000000000) : ℝ)) (by norm_num)
      (by norm_num) hTG2.1 hTG2.2
    exact ⟨le_trans (by norm_num) ha, le_trans hb (by norm_num)⟩
  have hTNL2 : ((21419581807/20000000000) : ℝ) ≤ Real.exp ((342866339/5000000000)) ∧ Real.exp ((342866339/5000000000)) ≤ ((26774477259/25000000000) : ℝ) := by
    have h := @Real.exp_bound ((342866339/5000000000) : ℝ)
      (by rw [abs_of_pos (by norm_num : (0:ℝ) < (342866339/5000000000))]; norm_num) 14 (by norm_num)
    rw [abs_of_pos (by norm_num : (0:ℝ) < (342866339/5000000000)), abs_sub_le_iff] at h
    obtain ⟨h1, h2⟩ := h
    simp only [Finset.sum_range_succ, Finset.sum_range_zero, Nat.factorial,
      Nat.succ_eq_add_one] at h1 h2
    norm_num at h1 h2
    constructor <;> linarith
  have hTNU2 : ((1338723863/1250000000) : ℝ) ≤ Real.exp ((107145731/1562500000)) ∧ Real.exp ((107145731/1562500000)) ≤ ((107097909041/100000000000) : ℝ) := by
    have h := @Real.exp_bound ((107145731/1562500000) : ℝ)
      (by rw [abs_of_pos (by norm_num : (0:ℝ) < (107145731/1562500000))]; norm_num) 14 (by norm_num)
    rw [abs_of_pos (by norm_num : (0:ℝ) < (107145731/1562500000)), abs_sub_le_iff] at h
    obtain ⟨h1, h2⟩ := h
    simp only [Finset.sum_range_succ, Finset.sum_range_zero, Nat.factorial,
      Nat.succ_eq_add_one] at h1 h2
    norm_num at h1 h2
    constructor <;> linarith

  have hnc : ((342866339/10000000000) : ℝ) ≤ sigmoid ((3351/80185)) * Real.tanh ((37759/561295)) ∧ (sigmoid ((3351/80185)) * Real.tanh ((37759/561295))) ≤ ((107145731/3125000000) : ℝ) := by
    constructor
    · exact le_trans (by norm_num)
        (mul_le_mul hSigI2.1 hTanG2.1 (by norm_num) (le_trans (by norm_num) hSigI2.1))
    · exact le_trans
        (mul_le_mul hSigI2.2 hTanG2.2 (le_trans (by norm_num) hTanG2.1) (by norm_num))
        (by norm_num)
  have hexp_lo : ((21419581807/20000000000) : ℝ) ≤ Real.exp (2 * (sigmoid ((3351/80185)) * Real.tanh ((37759/561295)))) := by
    have hm : ((342866339/5000000000) : ℝ) ≤ 2 * (sigmoid ((3351/80185)) * Real.tanh ((37759/561295))) := by linarith [hnc.1]
    exact le_trans hTNL2.1 (Real.exp_le_exp.mpr hm)
  have hexp_hi : Real.exp (2 * (sigmoid ((3351/80185)) * Real.tanh ((37759/561295)))) ≤ ((107097909041/100000000000) : ℝ) := by
    have hm : 2 * (sigmoid ((3351/80185)) * Real.tanh ((37759/561295))) ≤ ((107145731/1562500000) : ℝ) := by linarith [hnc.2]
    exact le_trans (Real.exp_le_exp.mpr hm) hTNU2.2
  have hTanNC : ((428415059/12500000000) : ℝ) ≤ Real.tanh (sigmoid ((3351/80185)) * Real.tanh ((37759/561295))) ∧
      Real.tanh (sigmoid ((3351/80185)) * Real.tanh ((37759/561295))) ≤ ((856830119/25000000000) : ℝ) := by
    obtain ⟨ha, hb⟩ := tanh_lb_ub (sigmoid ((3351/80185)) * Real.tanh ((37759/561295))) (2 * (sigmoid ((3351/80185)) * Real.tanh ((37759/561295))))
      ((21419581807/20000000000)) ((107097909041/100000000000)) rfl (by norm_num) hexp_lo hexp_hi
    exact ⟨le_trans (by norm_num) ha, le_trans hb (by norm_num)⟩
  refine ⟨fun n j => rfl, ?_⟩
  rw [hstep, abs_le]
  have hl : ((25734510631/50000000000) : ℝ) * ((428415059/12500000000)) ≤ sigmoid ((19795/336777)) * Real.tanh (sigmoid ((3351/80185)) * Real.tanh ((37759/561295))) :=
    mul_le_mul hSigO2.1 hTanNC.1 (by norm_num) (le_trans (by norm_num) hSigO2.1)
  have hu : sigmoid ((19795/336777)) * Real.tanh (sigmoid ((3351/80185)) * Real.tanh ((37759/561295))) ≤ ((51469021263/100000000000) : ℝ) * ((856830119/25000000000)) :=
    mul_le_mul hSigO2.2 hTanNC.2 (le_trans (by norm_num) hTanNC.1) (by norm_num)
  constructor <;> nlinarith

